import Mathlib

/-!
Verification of the uscgaux tri-store reconciliation engine.

The definitions below are a shallow embedding of the code in
`src/testy.ipynb` (the Repair Driver `update_qdrant_file_ids_for_live_rows`
and the file based identity helper `get_pdf_id_from_file`), together with
spec-modelled embeddings of the parts of the repository that are only
called from the notebook (`build_status_map`, `delete_tagged`,
`compute_pdf_id`).

Modelling conventions: a Python dict of string payload fields is an
association list `List (String × String)`; Qdrant points carry an id and a
payload metadata dict; the sheet is a list of rows.  External writes are
recorded as an explicit `Effect` trace.
-/

namespace Uscgaux

/-- One row of the LIBRARY_UNIFIED sheet, restricted to the fields the
Repair Driver reads: `row.get("pdf_id")`, `row.get("gcp_file_id")`,
`row["status"]`. -/
structure SheetRow where
  pdf_id : String
  gcp_file_id : String
  status : String
  deriving DecidableEq, Inhabited

/-- One Qdrant point: its id and the `payload["metadata"]` dict. -/
structure Point where
  id : Nat
  metadata : List (String × String)
  deriving DecidableEq, Inhabited

/-- `dict.get(k)` on an association list: the value at the first matching
key, if any. -/
def getField (m : List (String × String)) (k : String) : Option String :=
  match m with
  | [] => none
  | (k2, v) :: rest => if k2 = k then some v else getField rest k

/-- `dict[k] = v` on an association list: replace the first binding of `k`
in place, or append a fresh binding (Python dict update semantics). -/
def setField (m : List (String × String)) (k : String) (v : String) :
    List (String × String) :=
  match m with
  | [] => [(k, v)]
  | (k2, v2) :: rest =>
      if k2 = k then (k, v) :: rest else (k2, v2) :: setField rest k v

/-- Python `str.strip()`: drop leading and trailing whitespace. -/
def strip (s : String) : String :=
  ⟨((s.data.dropWhile Char.isWhitespace).reverse.dropWhile
      Char.isWhitespace).reverse⟩

/-- An external write issued by a driver: a Qdrant `set_payload` call, a
tabular-store write, or a file-store write.  The Repair Driver code in
`testy.ipynb` only ever issues `setPayload` calls. -/
inductive Effect where
  | setPayload (point_id : Nat) (metadata : List (String × String)) : Effect
  | sheetWrite : Effect
  | driveWrite : Effect
  deriving DecidableEq

/-- One record of the DataFrame returned by the Repair Driver: appended
exactly when a `set_payload` call is issued. -/
structure UpdateRecord where
  pdf_id : String
  point_id : Nat
  new_gcp_file_id : String
  deriving DecidableEq, Inhabited

/-- The per-point body of the Repair Driver scroll loop: if the payload
`metadata.pdf_id` matches the row and its `metadata.gcp_file_id` differs
from the sheet value, write the updated metadata back (`set_payload`) and
record the update; otherwise leave the point untouched. -/
def patchPoint (pid gcp : String) (p : Point) :
    Point × List Effect × List UpdateRecord :=
  if getField p.metadata "pdf_id" = some pid then
    if getField p.metadata "gcp_file_id" = some gcp then (p, [], [])
    else
      let m := setField p.metadata "gcp_file_id" gcp
      ({ p with metadata := m }, [Effect.setPayload p.id m],
        [⟨pid, p.id, gcp⟩])
  else (p, [], [])

/-- The scroll loop of the Repair Driver for one live row: visit every
point of the collection (the scroll filter `metadata.pdf_id == pid` is
checked in `patchPoint`; pagination is exhaustive, and patching
`gcp_file_id` never changes membership in the filter). -/
def processRow (pid gcp : String) :
    List Point → List Point × List Effect × List UpdateRecord
  | [] => ([], [], [])
  | p :: rest =>
      let r := patchPoint pid gcp p
      let rr := processRow pid gcp rest
      (r.1 :: rr.1, r.2.1 ++ rr.2.1, r.2.2 ++ rr.2.2)

/-- The per-row body of the Repair Driver: strip `pdf_id` and
`gcp_file_id`; `if not pdf_id or not gcp_file_id: continue`; otherwise run
the scroll loop. -/
def processLiveRow (store : List Point) (row : SheetRow) :
    List Point × List Effect × List UpdateRecord :=
  let pid := strip row.pdf_id
  let gcp := strip row.gcp_file_id
  if pid = "" ∨ gcp = "" then (store, [], [])
  else processRow pid gcp store

/-- Sequential iteration over the live rows, threading the Qdrant store
and accumulating the effect trace and the `updated` records in order. -/
def runRows : List SheetRow → List Point →
    List Point × List Effect × List UpdateRecord
  | [], store => (store, [], [])
  | row :: rest, store =>
      let r := processLiveRow store row
      let rr := runRows rest r.1
      (rr.1, r.2.1 ++ rr.2.1, r.2.2 ++ rr.2.2)

/-- The Repair Driver `update_qdrant_file_ids_for_live_rows` from
`testy.ipynb`: filter the sheet to `status == "live"` rows and run the
patch loop for each in order.  Returns the final store, the trace of
external writes, and the `updated` records (the returned DataFrame). -/
def update_qdrant_file_ids_for_live_rows (sheet : List SheetRow)
    (store : List Point) : List Point × List Effect × List UpdateRecord :=
  runRows (sheet.filter (fun r => r.status = "live")) store

/-- Modelled from the spec: `compute_pdf_id` (imported in `testy.ipynb`
from `utils.library_utils`, whose source is not in the repository
snapshot) derives a content-addressable, deterministic, 128-bit
identifier solely from the document bytes (a content hash).  We model it
as a concrete deterministic fold hash over the byte list, reduced modulo
2^128. -/
def compute_pdf_id (bytes : List Nat) : Nat :=
  (bytes.foldl (fun h b => h * 31 + b % 256) 5381) % 2 ^ 128

/-- Outcome of reading the document byte stream from disk: either the
full byte list, or a read failure (the exception caught in
`get_pdf_id_from_file`). -/
inductive FileRead where
  | ok (bytes : List Nat) : FileRead
  | failed (msg : String) : FileRead
  deriving DecidableEq

/-- `get_pdf_id_from_file` from `testy.ipynb`: read the file fully,
compute the content id of the bytes; on a read failure, log and return
`None`.  The embedding takes the read outcome as input. -/
def get_pdf_id_from_file (r : FileRead) : Option Nat :=
  match r with
  | FileRead.ok bytes => some (compute_pdf_id bytes)
  | FileRead.failed _ => none

/-- Modelled from the spec: the `file_ids_match` tri-state computed by
`build_status_map` (module `cleanup` / `status_map.py`, not in the
repository snapshot), following spec section 4.3, the section 8 scenario
(blank sheet file-id against populated vector file-ids yields false) and
the run recorded in `testy.ipynb` (blank sheet file-id with an empty
vector file-id list yields False; an identifier absent from Qdrant yields
None). -/
def file_ids_match (in_sheet : Bool) (sheet_fid : String)
    (in_qdrant : Bool) (fids : List String) : Option Bool :=
  if in_sheet && in_qdrant then
    some (sheet_fid != "" && !fids.isEmpty && fids.all (fun g => g == sheet_fid))
  else none

/-- One entry of the file-store (Drive) listing, keyed by identifier. -/
structure DriveEntry where
  pdf_id : String
  file_name : String
  deriving DecidableEq, Inhabited

/-- The vector-store listing aggregated by identifier: point count, page
count, and the distinct `gcp_file_id` values referenced by payloads. -/
structure QdrantAgg where
  pdf_id : String
  record_count : Nat
  page_count : Nat
  gcp_file_ids : List String
  deriving DecidableEq, Inhabited

/-- One Status Map Entry, with the columns of the recorded
`build_status_map` output in `testy.ipynb`. -/
structure StatusEntry where
  pdf_id : String
  gcp_file_id : String
  in_sheet : Bool
  in_drive : Bool
  in_qdrant : Bool
  empty_pdf_id_in_sheet : Bool
  empty_gcp_file_id_in_sheet : Bool
  empty_gcp_file_id_in_qdrant : Bool
  duplicate_pdf_id_in_sheet : Bool
  record_count : Nat
  gcp_file_ids : List String
  unique_file_count : Nat
  zero_record_count : Bool
  file_ids_match : Option Bool
  issues : List String
  deriving DecidableEq, Inhabited

/-- Modelled from the spec: the per-identifier body of `build_status_map`
(spec section 4.3): presence booleans from each source, empty-field and
duplicate flags, vector aggregates, the `file_ids_match` tri-state, and
the ordered deduplicated `issues` list. -/
def entryFor (s : List SheetRow) (d : List DriveEntry)
    (q : List QdrantAgg) (k : String) : StatusEntry :=
  let srows := s.filter (fun r => r.pdf_id == k)
  let inS := !srows.isEmpty
  let sgcp := ((srows.head?).map SheetRow.gcp_file_id).getD ""
  let inD := d.any (fun e => e.pdf_id == k)
  let qagg := (q.filter (fun a => a.pdf_id == k)).head?
  let inQ := !(q.filter (fun a => a.pdf_id == k)).isEmpty
  let fids := (qagg.map QdrantAgg.gcp_file_ids).getD []
  let rc := (qagg.map QdrantAgg.record_count).getD 0
  let emptyPdf := inS && (k == "")
  let emptyGcpS := inS && (sgcp == "")
  let emptyGcpQ := inQ && fids.isEmpty
  let dup := decide (1 < srows.length)
  let fim := file_ids_match inS sgcp inQ fids
  { pdf_id := k
    gcp_file_id := sgcp
    in_sheet := inS
    in_drive := inD
    in_qdrant := inQ
    empty_pdf_id_in_sheet := emptyPdf
    empty_gcp_file_id_in_sheet := emptyGcpS
    empty_gcp_file_id_in_qdrant := emptyGcpQ
    duplicate_pdf_id_in_sheet := dup
    record_count := rc
    gcp_file_ids := fids
    unique_file_count := fids.dedup.length
    zero_record_count := inQ && (rc == 0)
    file_ids_match := fim
    issues :=
      (if emptyPdf then ["Empty pdf_id in Sheet"] else []) ++
      (if emptyGcpS then ["Empty gcp_file_id in Sheet"] else []) ++
      (if emptyGcpQ then ["Empty gcp_file_id in Qdrant"] else []) ++
      (if dup then ["Duplicate pdf_id in Sheet"] else []) ++
      (if !inS then ["Missing in Sheet"] else []) ++
      (if !inD then ["Missing in Drive"] else []) ++
      (if !inQ then ["Missing in Qdrant"] else []) ++
      (if fim == some false then ["File IDs mismatch"] else []) }

/-- Modelled from the spec: `build_status_map` (module `cleanup`, not in
the repository snapshot): outer join of the three listings over the union
of their identifier sets, producing one Status Map Entry per identifier,
plus the filtered view of entries with a non-empty issues list. -/
def build_status_map (s : List SheetRow) (d : List DriveEntry)
    (q : List QdrantAgg) : List StatusEntry × List StatusEntry :=
  let keys := (s.map SheetRow.pdf_id ++ d.map DriveEntry.pdf_id ++
      q.map QdrantAgg.pdf_id).dedup
  let entries := keys.map (entryFor s d q)
  (entries, entries.filter (fun e => !e.issues.isEmpty))

/-- The whole tri-store state consumed by the Deletion Driver. -/
structure TriStore where
  sheet : List SheetRow
  drive : List DriveEntry
  qdrant : List Point
  deriving DecidableEq, Inhabited

/-- Modelled from the spec: `delete_tagged` (module `cleanup`, not in the
repository snapshot), spec section 4.5: for every row tagged for
deletion, remove its file from the file store (tolerating absence),
remove every vector point keyed by its identifier (tolerating absence),
remove the sheet row, and return the rows actually deleted as the audit
record. -/
def delete_tagged (st : TriStore) : TriStore × List SheetRow :=
  let tagged := st.sheet.filter (fun r => r.status == "tagged_for_deletion")
  let remaining := st.sheet.filter (fun r => r.status != "tagged_for_deletion")
  let drive2 := st.drive.filter
      (fun e => tagged.all (fun r => r.pdf_id != e.pdf_id))
  let qdrant2 := st.qdrant.filter
      (fun p => tagged.all
        (fun r => !(getField p.metadata "pdf_id" == some r.pdf_id)))
  (⟨remaining, drive2, qdrant2⟩, tagged)

/-- The Boolean condition under which the Repair Driver writes a point:
its payload `pdf_id` matches the row and its payload `gcp_file_id`
differs from the sheet value. -/
def mismatched (pid gcp : String) (p : Point) : Bool :=
  decide (getField p.metadata "pdf_id" = some pid) &&
    !decide (getField p.metadata "gcp_file_id" = some gcp)

/-- The patched form of a point (only its `gcp_file_id` payload field is
replaced). -/
def patched (gcp : String) (p : Point) : Point :=
  { p with metadata := setField p.metadata "gcp_file_id" gcp }

/-- A store is already repaired for `(pid, gcp)`: every point keyed by
`pid` carries `gcp` as its payload `gcp_file_id`. -/
def Fixed (pid gcp : String) (store : List Point) : Prop :=
  ∀ p ∈ store, getField p.metadata "pdf_id" = some pid →
    getField p.metadata "gcp_file_id" = some gcp

/-- A sheet row the Repair Driver acts on: both stripped fields are
non-blank (otherwise the row is skipped by `continue`). -/
def effectiveRow (r : SheetRow) : Prop :=
  strip r.pdf_id ≠ "" ∧ strip r.gcp_file_id ≠ ""

/-- Correspondence between one `set_payload` write and one returned
record: the write targets the point named by the record and its payload
carries the identifier and new file-id named by the record. -/
def writeMatchesRecord (e : Effect) (rec : UpdateRecord) : Prop :=
  ∃ pl, e = Effect.setPayload rec.point_id pl ∧
    getField pl "pdf_id" = some rec.pdf_id ∧
    getField pl "gcp_file_id" = some rec.new_gcp_file_id

/-- Frame relation between an output point and the corresponding input
point: same id, and every payload metadata field other than
`gcp_file_id` has its previous value. -/
def frameRel (p2 p : Point) : Prop :=
  p2.id = p.id ∧ ∀ k, k ≠ "gcp_file_id" →
    getField p2.metadata k = getField p.metadata k

/-! ### Basic lemmas about the association-list payload operations -/

theorem getField_setField_same (m : List (String × String)) (k v : String) :
    getField (setField m k v) k = some v := by
  induction m with
  | nil => simp [setField, getField]
  | cons hd tl ih =>
      by_cases h : hd.1 = k
      · simp [setField, getField, h]
      · simp [setField, getField, h, ih]

theorem getField_setField_ne (m : List (String × String)) {k k2 : String}
    (v : String) (h : k2 ≠ k) :
    getField (setField m k v) k2 = getField m k2 := by
  induction m with
  | nil => simp [setField, getField, Ne.symm h]
  | cons hd tl ih =>
      by_cases hh : hd.1 = k
      · subst hh
        simp [setField, getField, h, Ne.symm h]
      · simp [setField, getField, hh, ih]

theorem patchPoint_eq (pid gcp : String) (p : Point) :
    patchPoint pid gcp p =
      if mismatched pid gcp p then
        (patched gcp p,
         [Effect.setPayload p.id (setField p.metadata "gcp_file_id" gcp)],
         [⟨pid, p.id, gcp⟩])
      else (p, [], []) := by
  by_cases h1 : getField p.metadata "pdf_id" = some pid
  · by_cases h2 : getField p.metadata "gcp_file_id" = some gcp
    · simp [patchPoint, mismatched, h1, h2]
    · simp [patchPoint, mismatched, patched, h1, h2]
  · simp [patchPoint, mismatched, h1]

theorem processRow_eq (pid gcp : String) (store : List Point) :
    processRow pid gcp store =
      (store.map (fun p => if mismatched pid gcp p then patched gcp p else p),
       (store.filter (mismatched pid gcp)).map
         (fun p => Effect.setPayload p.id
            (setField p.metadata "gcp_file_id" gcp)),
       (store.filter (mismatched pid gcp)).map
         (fun p => (⟨pid, p.id, gcp⟩ : UpdateRecord))) := by
  induction store with
  | nil => simp [processRow]
  | cons p rest ih =>
      by_cases h : mismatched pid gcp p
      · simp [processRow, ih, patchPoint_eq, h, List.filter_cons]
      · simp [processRow, ih, patchPoint_eq, h, List.filter_cons]

/-- C1: for every live sheet row (with non-blank stripped `pdf_id` and
`gcp_file_id`), the Repair Driver patches exactly the points whose
payload `pdf_id` matches the row and whose payload `gcp_file_id` differs
from the sheet value: those points get exactly the one-field update, all
other points are returned untouched, every `set_payload` write and every
returned record comes from exactly those points. -/
theorem repair_patches_exactly_mismatched (row : SheetRow)
    (store : List Point) (hlive : row.status = "live")
    (hp : strip row.pdf_id ≠ "") (hg : strip row.gcp_file_id ≠ "") :
    update_qdrant_file_ids_for_live_rows [row] store =
      (store.map (fun p =>
          if mismatched (strip row.pdf_id) (strip row.gcp_file_id) p then
            patched (strip row.gcp_file_id) p
          else p),
       (store.filter (mismatched (strip row.pdf_id) (strip row.gcp_file_id))).map
         (fun p => Effect.setPayload p.id
            (setField p.metadata "gcp_file_id" (strip row.gcp_file_id))),
       (store.filter (mismatched (strip row.pdf_id) (strip row.gcp_file_id))).map
         (fun p => (⟨strip row.pdf_id, p.id, strip row.gcp_file_id⟩ :
            UpdateRecord))) := by
  have hfilter : ([row].filter (fun r => r.status = "live")) = [row] := by
    simp [List.filter_cons, hlive]
  simp only [update_qdrant_file_ids_for_live_rows, hfilter]
  simp [runRows, processLiveRow, hp, hg, processRow_eq]

/-- Witness for `repair_patches_exactly_mismatched` at a concrete live
row and a three-point store (one mismatched, one already correct, one for
another document). -/
theorem repair_patches_exactly_mismatched_witness :
    ((⟨"X", "g1", "live"⟩ : SheetRow).status = "live" ∧
     strip (⟨"X", "g1", "live"⟩ : SheetRow).pdf_id ≠ "" ∧
     strip (⟨"X", "g1", "live"⟩ : SheetRow).gcp_file_id ≠ "") ∧
    update_qdrant_file_ids_for_live_rows [⟨"X", "g1", "live"⟩]
      [⟨1, [("pdf_id", "X"), ("gcp_file_id", "g0")]⟩,
       ⟨2, [("pdf_id", "X"), ("gcp_file_id", "g1")]⟩,
       ⟨3, [("pdf_id", "Y"), ("gcp_file_id", "g0")]⟩] =
      ([⟨1, [("pdf_id", "X"), ("gcp_file_id", "g1")]⟩,
        ⟨2, [("pdf_id", "X"), ("gcp_file_id", "g1")]⟩,
        ⟨3, [("pdf_id", "Y"), ("gcp_file_id", "g0")]⟩],
       [Effect.setPayload 1 [("pdf_id", "X"), ("gcp_file_id", "g1")]],
       [⟨"X", 1, "g1"⟩]) := by
  refine ⟨⟨rfl, by decide, by decide⟩, ?_⟩
  have h := repair_patches_exactly_mismatched ⟨"X", "g1", "live"⟩
    [⟨1, [("pdf_id", "X"), ("gcp_file_id", "g0")]⟩,
     ⟨2, [("pdf_id", "X"), ("gcp_file_id", "g1")]⟩,
     ⟨3, [("pdf_id", "Y"), ("gcp_file_id", "g0")]⟩]
    rfl (by decide) (by decide)
  rw [h]
  decide

/-! ### Fixed-point lemmas for the Repair Driver -/

theorem mismatched_false_iff (pid gcp : String) (p : Point) :
    mismatched pid gcp p = false ↔
      (getField p.metadata "pdf_id" = some pid →
        getField p.metadata "gcp_file_id" = some gcp) := by
  by_cases h1 : getField p.metadata "pdf_id" = some pid
  · by_cases h2 : getField p.metadata "gcp_file_id" = some gcp
    · simp [mismatched, h1, h2]
    · simp [mismatched, h1, h2]
  · simp [mismatched, h1]

theorem Fixed_processRow (pid gcp : String) (store : List Point) :
    Fixed pid gcp (processRow pid gcp store).1 := by
  intro p2 hp2 hpdf
  rw [processRow_eq] at hp2
  obtain ⟨p, _, rfl⟩ := List.mem_map.1 hp2
  by_cases h : mismatched pid gcp p = true
  · simp only [h, if_true]
    exact getField_setField_same _ _ _
  · have hf : mismatched pid gcp p = false := by
      simpa using h
    simp only [hf, Bool.false_eq_true, if_false] at hpdf ⊢
    exact (mismatched_false_iff pid gcp p).1 hf hpdf

theorem Fixed_preserved_processRow {pid gcp pid2 : String} (gcp2 : String)
    (hne : pid2 ≠ pid) {store : List Point} (hf : Fixed pid gcp store) :
    Fixed pid gcp (processRow pid2 gcp2 store).1 := by
  intro p2 hp2 hpdf
  rw [processRow_eq] at hp2
  obtain ⟨p, hp, rfl⟩ := List.mem_map.1 hp2
  by_cases h : mismatched pid2 gcp2 p = true
  · exfalso
    have hmatch : getField p.metadata "pdf_id" = some pid2 := by
      have := h
      simp only [mismatched, Bool.and_eq_true, decide_eq_true_eq,
        Bool.not_eq_true', decide_eq_false_iff_not] at this
      exact this.1
    have hpdf2 : getField (patched gcp2 p).metadata "pdf_id" =
        getField p.metadata "pdf_id" := by
      simpa [patched] using
        @getField_setField_ne p.metadata "gcp_file_id" "pdf_id" gcp2
          (by decide)
    simp only [h, if_true] at hpdf
    rw [hpdf2, hmatch] at hpdf
    exact hne (Option.some.inj hpdf) |>.elim
  · have hf2 : mismatched pid2 gcp2 p = false := by simpa using h
    simp only [hf2, Bool.false_eq_true, if_false] at hpdf ⊢
    exact hf p hp hpdf

theorem processRow_of_Fixed {pid gcp : String} {store : List Point}
    (hf : Fixed pid gcp store) :
    processRow pid gcp store = (store, [], []) := by
  induction store with
  | nil => rfl
  | cons p rest ih =>
      have hhd : patchPoint pid gcp p = (p, [], []) := by
        by_cases h1 : getField p.metadata "pdf_id" = some pid
        · have h2 := hf p (List.mem_cons_self _ _) h1
          simp [patchPoint, h1, h2]
        · simp [patchPoint, h1]
      have htl : processRow pid gcp rest = (rest, [], []) := by
        exact ih (fun p2 hp2 => hf p2 (List.mem_cons_of_mem _ hp2))
      simp [processRow, hhd, htl]

theorem Fixed_preserved_runRows {pid gcp : String} :
    ∀ (rows : List SheetRow) (store : List Point),
      Fixed pid gcp store →
      (∀ r ∈ rows, effectiveRow r → strip r.pdf_id = pid →
        strip r.gcp_file_id = gcp) →
      Fixed pid gcp (runRows rows store).1
  | [], store, hf, _ => hf
  | a :: rest, store, hf, hrows => by
      have hrest : ∀ r ∈ rest, effectiveRow r → strip r.pdf_id = pid →
          strip r.gcp_file_id = gcp :=
        fun r hr => hrows r (List.mem_cons_of_mem _ hr)
      have hstep : Fixed pid gcp (processLiveRow store a).1 := by
        by_cases ha : strip a.pdf_id = "" ∨ strip a.gcp_file_id = ""
        · simpa [processLiveRow, ha] using hf
        · have haeff : effectiveRow a := by
            constructor
            · exact fun h => ha (Or.inl h)
            · exact fun h => ha (Or.inr h)
          by_cases hpid : strip a.pdf_id = pid
          · have hgcp : strip a.gcp_file_id = gcp :=
              hrows a (List.mem_cons_self _ _) haeff hpid
            have hunfold : processLiveRow store a =
                processRow (strip a.pdf_id) (strip a.gcp_file_id) store := by
              simp [processLiveRow, ha]
            rw [hunfold, hpid, hgcp]
            exact Fixed_processRow pid gcp store
          · simpa [processLiveRow, ha] using
              Fixed_preserved_processRow (strip a.gcp_file_id) hpid hf
      simpa [runRows] using
        Fixed_preserved_runRows rest (processLiveRow store a).1 hstep hrest

theorem runRows_of_Fixed :
    ∀ (rows : List SheetRow) (store : List Point),
      (∀ r ∈ rows, effectiveRow r →
        Fixed (strip r.pdf_id) (strip r.gcp_file_id) store) →
      runRows rows store = (store, [], [])
  | [], _, _ => rfl
  | a :: rest, store, hrows => by
      have hstep : processLiveRow store a = (store, [], []) := by
        by_cases ha : strip a.pdf_id = "" ∨ strip a.gcp_file_id = ""
        · simp [processLiveRow, ha]
        · have haeff : effectiveRow a := by
            constructor
            · exact fun h => ha (Or.inl h)
            · exact fun h => ha (Or.inr h)
          have hf := hrows a (List.mem_cons_self _ _) haeff
          simp [processLiveRow, ha, processRow_of_Fixed hf]
      have htl : runRows rest store = (store, [], []) :=
        runRows_of_Fixed rest store
          (fun r hr => hrows r (List.mem_cons_of_mem _ hr))
      simp [runRows, hstep, htl]

theorem runRows_Fixed_all :
    ∀ (rows : List SheetRow) (store : List Point),
      (∀ r1 ∈ rows, ∀ r2 ∈ rows, effectiveRow r1 → effectiveRow r2 →
        strip r1.pdf_id = strip r2.pdf_id →
        strip r1.gcp_file_id = strip r2.gcp_file_id) →
      ∀ r ∈ rows, effectiveRow r →
        Fixed (strip r.pdf_id) (strip r.gcp_file_id) (runRows rows store).1
  | [], _, _, r, hr, _ => absurd hr (List.not_mem_nil r)
  | a :: rest, store, hc, r, hr, hreff => by
      have hcrest : ∀ r1 ∈ rest, ∀ r2 ∈ rest, effectiveRow r1 →
          effectiveRow r2 → strip r1.pdf_id = strip r2.pdf_id →
          strip r1.gcp_file_id = strip r2.gcp_file_id :=
        fun r1 h1 r2 h2 => hc r1 (List.mem_cons_of_mem _ h1) r2
          (List.mem_cons_of_mem _ h2)
      rcases List.mem_cons.1 hr with hra | hrrest
      · subst hra
        have hstep : Fixed (strip r.pdf_id) (strip r.gcp_file_id)
            (processLiveRow store r).1 := by
          have hne1 : ¬(strip r.pdf_id = "" ∨ strip r.gcp_file_id = "") := by
            rintro (h | h)
            · exact hreff.1 h
            · exact hreff.2 h
          simpa [processLiveRow, hne1] using
            Fixed_processRow (strip r.pdf_id) (strip r.gcp_file_id) store
        have hrest2 : ∀ r2 ∈ rest, effectiveRow r2 →
            strip r2.pdf_id = strip r.pdf_id →
            strip r2.gcp_file_id = strip r.gcp_file_id :=
          fun r2 h2 heff2 => hc r2 (List.mem_cons_of_mem _ h2) r
            (List.mem_cons_self _ _) heff2 hreff
        simpa [runRows] using
          Fixed_preserved_runRows rest (processLiveRow store r).1 hstep hrest2
      · simpa [runRows] using
          runRows_Fixed_all rest (processLiveRow store a).1 hcrest r hrrest hreff

/-- C2 counterexample: two live rows share the identifier `X` with
conflicting file-ids.  The first run patches the point twice, and the
second run patches it again: the returned record list of the second run
is not empty. -/
theorem repair_second_run_patches_again :
    ((update_qdrant_file_ids_for_live_rows
        [⟨"X", "g1", "live"⟩, ⟨"X", "g2", "live"⟩]
        (update_qdrant_file_ids_for_live_rows
          [⟨"X", "g1", "live"⟩, ⟨"X", "g2", "live"⟩]
          [⟨1, [("pdf_id", "X"), ("gcp_file_id", "g0")]⟩]).1).2.2 ≠ [] ∧
     (update_qdrant_file_ids_for_live_rows
        [⟨"X", "g1", "live"⟩, ⟨"X", "g2", "live"⟩]
        (update_qdrant_file_ids_for_live_rows
          [⟨"X", "g1", "live"⟩, ⟨"X", "g2", "live"⟩]
          [⟨1, [("pdf_id", "X"), ("gcp_file_id", "g0")]⟩]).1).2.2.length = 2) := by
  decide

/-- C2 (amended): if no two live rows the driver acts on share a stripped
`pdf_id` while disagreeing on the stripped `gcp_file_id`, then the Repair
Driver is a fixed point after one application: a second run issues no
write, returns no record, and leaves the store unchanged. -/
theorem repair_fixed_point_of_consistent (sheet : List SheetRow)
    (store : List Point)
    (hcons : ∀ r1 ∈ sheet, ∀ r2 ∈ sheet, r1.status = "live" →
      r2.status = "live" → effectiveRow r1 → effectiveRow r2 →
      strip r1.pdf_id = strip r2.pdf_id →
      strip r1.gcp_file_id = strip r2.gcp_file_id) :
    update_qdrant_file_ids_for_live_rows sheet
        (update_qdrant_file_ids_for_live_rows sheet store).1 =
      ((update_qdrant_file_ids_for_live_rows sheet store).1, [], []) := by
  set L := sheet.filter (fun r => r.status = "live") with hL
  have hmem : ∀ r ∈ L, r ∈ sheet ∧ r.status = "live" := by
    intro r hr
    rw [hL, List.mem_filter] at hr
    exact ⟨hr.1, by simpa using hr.2⟩
  have hc : ∀ r1 ∈ L, ∀ r2 ∈ L, effectiveRow r1 → effectiveRow r2 →
      strip r1.pdf_id = strip r2.pdf_id →
      strip r1.gcp_file_id = strip r2.gcp_file_id := by
    intro r1 h1 r2 h2
    exact hcons r1 (hmem r1 h1).1 r2 (hmem r2 h2).1 (hmem r1 h1).2
      (hmem r2 h2).2
  have hfix := runRows_Fixed_all L store hc
  exact runRows_of_Fixed L _ hfix

/-- Witness for `repair_fixed_point_of_consistent`: a single live row and
a one-point store with a stale file-id. -/
theorem repair_fixed_point_of_consistent_witness :
    (∀ r1 ∈ [(⟨"X", "g1", "live"⟩ : SheetRow)],
      ∀ r2 ∈ [(⟨"X", "g1", "live"⟩ : SheetRow)], r1.status = "live" →
      r2.status = "live" → effectiveRow r1 → effectiveRow r2 →
      strip r1.pdf_id = strip r2.pdf_id →
      strip r1.gcp_file_id = strip r2.gcp_file_id) ∧
    update_qdrant_file_ids_for_live_rows [⟨"X", "g1", "live"⟩]
        (update_qdrant_file_ids_for_live_rows [⟨"X", "g1", "live"⟩]
          [⟨1, [("pdf_id", "X"), ("gcp_file_id", "g0")]⟩]).1 =
      ((update_qdrant_file_ids_for_live_rows [⟨"X", "g1", "live"⟩]
          [⟨1, [("pdf_id", "X"), ("gcp_file_id", "g0")]⟩]).1, [], []) := by
  constructor
  · intro r1 h1 r2 h2 _ _ _ _ hpid
    simp only [List.mem_singleton] at h1 h2
    subst h1; subst h2
    rfl
  · exact repair_fixed_point_of_consistent [⟨"X", "g1", "live"⟩]
      [⟨1, [("pdf_id", "X"), ("gcp_file_id", "g0")]⟩]
      (by
        intro r1 h1 r2 h2 _ _ _ _ hpid
        simp only [List.mem_singleton] at h1 h2
        subst h1; subst h2
        rfl)

/-! ### Audit-trail and frame lemmas for the Repair Driver -/

theorem mismatched_true_iff (pid gcp : String) (p : Point) :
    mismatched pid gcp p = true ↔
      getField p.metadata "pdf_id" = some pid ∧
        ¬getField p.metadata "gcp_file_id" = some gcp := by
  simp [mismatched]

theorem patchPoint_writes_records (pid gcp : String) (p : Point) :
    List.Forall₂ writeMatchesRecord (patchPoint pid gcp p).2.1
      (patchPoint pid gcp p).2.2 := by
  rw [patchPoint_eq]
  by_cases h : mismatched pid gcp p = true
  · simp only [h, if_true]
    refine List.Forall₂.cons ?_ List.Forall₂.nil
    refine ⟨setField p.metadata "gcp_file_id" gcp, rfl, ?_,
      getField_setField_same _ _ _⟩
    rw [getField_setField_ne p.metadata gcp (by decide)]
    exact ((mismatched_true_iff pid gcp p).1 h).1
  · simp only [h, if_false, Bool.false_eq_true]
    exact List.Forall₂.nil

theorem processRow_writes_records (pid gcp : String) (store : List Point) :
    List.Forall₂ writeMatchesRecord (processRow pid gcp store).2.1
      (processRow pid gcp store).2.2 := by
  induction store with
  | nil => exact List.Forall₂.nil
  | cons p rest ih =>
      simpa [processRow] using
        List.rel_append (patchPoint_writes_records pid gcp p) ih

theorem processLiveRow_writes_records (store : List Point) (row : SheetRow) :
    List.Forall₂ writeMatchesRecord (processLiveRow store row).2.1
      (processLiveRow store row).2.2 := by
  by_cases h : strip row.pdf_id = "" ∨ strip row.gcp_file_id = ""
  · simp only [processLiveRow, h, if_true]
    exact List.Forall₂.nil
  · simp only [processLiveRow, h, if_false]
    exact processRow_writes_records _ _ _

theorem runRows_writes_records :
    ∀ (rows : List SheetRow) (store : List Point),
      List.Forall₂ writeMatchesRecord (runRows rows store).2.1
        (runRows rows store).2.2
  | [], _ => List.Forall₂.nil
  | row :: rest, store => by
      simpa [runRows] using
        List.rel_append (processLiveRow_writes_records store row)
          (runRows_writes_records rest (processLiveRow store row).1)

/-- C6: the DataFrame the Repair Driver returns is exactly its audit
trail: the record list corresponds one-to-one and in order with the
`set_payload` writes performed (each record names the patched point and
the identifier and file-id written to it), and it is empty precisely when
no point was patched. -/
theorem repair_returns_exactly_patched_entries (sheet : List SheetRow)
    (store : List Point) :
    List.Forall₂ writeMatchesRecord
      (update_qdrant_file_ids_for_live_rows sheet store).2.1
      (update_qdrant_file_ids_for_live_rows sheet store).2.2 ∧
    ((update_qdrant_file_ids_for_live_rows sheet store).2.2 = [] ↔
      (update_qdrant_file_ids_for_live_rows sheet store).2.1 = []) := by
  have h : List.Forall₂ writeMatchesRecord
      (update_qdrant_file_ids_for_live_rows sheet store).2.1
      (update_qdrant_file_ids_for_live_rows sheet store).2.2 :=
    runRows_writes_records (sheet.filter (fun r => r.status = "live")) store
  refine ⟨h, ?_, ?_⟩
  · intro hr
    rw [hr] at h
    exact List.forall₂_nil_right_iff.1 h
  · intro he
    rw [he] at h
    exact List.forall₂_nil_left_iff.1 h

/-- Witness for `repair_returns_exactly_patched_entries` at a concrete
sheet and store. -/
theorem repair_returns_exactly_patched_entries_witness :
    List.Forall₂ writeMatchesRecord
      (update_qdrant_file_ids_for_live_rows [⟨"X", "g1", "live"⟩]
        [⟨1, [("pdf_id", "X"), ("gcp_file_id", "g0")]⟩]).2.1
      (update_qdrant_file_ids_for_live_rows [⟨"X", "g1", "live"⟩]
        [⟨1, [("pdf_id", "X"), ("gcp_file_id", "g0")]⟩]).2.2 ∧
    ((update_qdrant_file_ids_for_live_rows [⟨"X", "g1", "live"⟩]
        [⟨1, [("pdf_id", "X"), ("gcp_file_id", "g0")]⟩]).2.2 = [] ↔
      (update_qdrant_file_ids_for_live_rows [⟨"X", "g1", "live"⟩]
        [⟨1, [("pdf_id", "X"), ("gcp_file_id", "g0")]⟩]).2.1 = []) :=
  repair_returns_exactly_patched_entries [⟨"X", "g1", "live"⟩]
    [⟨1, [("pdf_id", "X"), ("gcp_file_id", "g0")]⟩]

theorem frameRel_refl (p : Point) : frameRel p p :=
  ⟨rfl, fun _ _ => rfl⟩

theorem frameRel_trans {a b c : Point} (h1 : frameRel a b)
    (h2 : frameRel b c) : frameRel a c :=
  ⟨h1.1.trans h2.1, fun k hk => (h1.2 k hk).trans (h2.2 k hk)⟩

theorem forall₂_frameRel_refl : ∀ l : List Point, List.Forall₂ frameRel l l
  | [] => List.Forall₂.nil
  | p :: rest => List.Forall₂.cons (frameRel_refl p) (forall₂_frameRel_refl rest)

theorem forall₂_frameRel_trans :
    ∀ {a b c : List Point}, List.Forall₂ frameRel a b →
      List.Forall₂ frameRel b c → List.Forall₂ frameRel a c
  | [], [], [], _, _ => List.Forall₂.nil
  | _ :: _, _ :: _, _ :: _, List.Forall₂.cons h1 t1,
      List.Forall₂.cons h2 t2 =>
    List.Forall₂.cons (frameRel_trans h1 h2) (forall₂_frameRel_trans t1 t2)

theorem patchPoint_frame (pid gcp : String) (p : Point) :
    frameRel (patchPoint pid gcp p).1 p := by
  rw [patchPoint_eq]
  by_cases h : mismatched pid gcp p = true
  · simp only [h, if_true]
    exact ⟨rfl, fun k hk => getField_setField_ne p.metadata gcp hk⟩
  · simp only [h, if_false, Bool.false_eq_true]
    exact frameRel_refl p

theorem processRow_frame (pid gcp : String) (store : List Point) :
    List.Forall₂ frameRel (processRow pid gcp store).1 store := by
  induction store with
  | nil => exact List.Forall₂.nil
  | cons p rest ih =>
      exact List.Forall₂.cons (patchPoint_frame pid gcp p) ih

theorem processLiveRow_frame (store : List Point) (row : SheetRow) :
    List.Forall₂ frameRel (processLiveRow store row).1 store := by
  by_cases h : strip row.pdf_id = "" ∨ strip row.gcp_file_id = ""
  · simp only [processLiveRow, h, if_true]
    exact forall₂_frameRel_refl store
  · simp only [processLiveRow, h, if_false]
    exact processRow_frame _ _ _

theorem runRows_frame :
    ∀ (rows : List SheetRow) (store : List Point),
      List.Forall₂ frameRel (runRows rows store).1 store
  | [], store => forall₂_frameRel_refl store
  | row :: rest, store => by
      have h1 := processLiveRow_frame store row
      have h2 := runRows_frame rest (processLiveRow store row).1
      simpa [runRows] using forall₂_frameRel_trans h2 h1

theorem patchPoint_effects_setPayload (pid gcp : String) (p : Point) :
    ∀ e ∈ (patchPoint pid gcp p).2.1, ∃ i pl, e = Effect.setPayload i pl := by
  rw [patchPoint_eq]
  by_cases h : mismatched pid gcp p = true
  · simp only [h, if_true]
    intro e he
    rw [List.mem_singleton] at he
    exact ⟨p.id, setField p.metadata "gcp_file_id" gcp, he⟩
  · simp only [h, if_false, Bool.false_eq_true]
    intro e he
    exact absurd he (List.not_mem_nil e)

theorem processRow_effects_setPayload (pid gcp : String) (store : List Point) :
    ∀ e ∈ (processRow pid gcp store).2.1,
      ∃ i pl, e = Effect.setPayload i pl := by
  induction store with
  | nil => intro e he; exact absurd he (List.not_mem_nil e)
  | cons p rest ih =>
      intro e he
      simp only [processRow, List.mem_append] at he
      rcases he with he | he
      · exact patchPoint_effects_setPayload pid gcp p e he
      · exact ih e he

theorem runRows_effects_setPayload :
    ∀ (rows : List SheetRow) (store : List Point),
      ∀ e ∈ (runRows rows store).2.1, ∃ i pl, e = Effect.setPayload i pl
  | [], _, e, he => absurd he (List.not_mem_nil e)
  | row :: rest, store, e, he => by
      simp only [runRows, List.mem_append] at he
      rcases he with he | he
      · by_cases h : strip row.pdf_id = "" ∨ strip row.gcp_file_id = ""
        · simp only [processLiveRow, h, if_true] at he
          exact absurd he (List.not_mem_nil e)
        · simp only [processLiveRow, h, if_false] at he
          exact processRow_effects_setPayload _ _ store e he
      · exact runRows_effects_setPayload rest (processLiveRow store row).1 e he

/-- C10: the Repair Driver writes only to the vector store (every entry
of its effect trace is a Qdrant `set_payload` call; it never writes the
tabular or file store), and the resulting store is pointwise frame
related to the input store: same point ids, and every payload metadata
field other than `gcp_file_id` keeps its previous value. -/
theorem repair_frame_only_qdrant_payload (sheet : List SheetRow)
    (store : List Point) :
    (∀ e ∈ (update_qdrant_file_ids_for_live_rows sheet store).2.1,
      ∃ i pl, e = Effect.setPayload i pl) ∧
    List.Forall₂ frameRel
      (update_qdrant_file_ids_for_live_rows sheet store).1 store :=
  ⟨runRows_effects_setPayload _ store,
   runRows_frame (sheet.filter (fun r => r.status = "live")) store⟩

/-- Witness for `repair_frame_only_qdrant_payload` at a concrete sheet
and store (a point with an extra payload field that must survive the
patch). -/
theorem repair_frame_only_qdrant_payload_witness :
    (∀ e ∈ (update_qdrant_file_ids_for_live_rows [⟨"X", "g1", "live"⟩]
        [⟨1, [("pdf_id", "X"), ("gcp_file_id", "g0"), ("page", "7")]⟩]).2.1,
      ∃ i pl, e = Effect.setPayload i pl) ∧
    List.Forall₂ frameRel
      (update_qdrant_file_ids_for_live_rows [⟨"X", "g1", "live"⟩]
        [⟨1, [("pdf_id", "X"), ("gcp_file_id", "g0"), ("page", "7")]⟩]).1
      [⟨1, [("pdf_id", "X"), ("gcp_file_id", "g0"), ("page", "7")]⟩] :=
  repair_frame_only_qdrant_payload [⟨"X", "g1", "live"⟩]
    [⟨1, [("pdf_id", "X"), ("gcp_file_id", "g0"), ("page", "7")]⟩]

/-! ### Skipping of blank-field live rows -/

theorem runRows_append :
    ∀ (l1 l2 : List SheetRow) (store : List Point),
      runRows (l1 ++ l2) store =
        ((runRows l2 (runRows l1 store).1).1,
         (runRows l1 store).2.1 ++ (runRows l2 (runRows l1 store).1).2.1,
         (runRows l1 store).2.2 ++ (runRows l2 (runRows l1 store).1).2.2)
  | [], l2, store => by simp [runRows]
  | a :: rest, l2, store => by
      simp [runRows, runRows_append rest l2 (processLiveRow store a).1,
        List.append_assoc]

/-- C9: a sheet row with `status = "live"` whose stripped `pdf_id` or
stripped `gcp_file_id` is blank is silently skipped by the Repair Driver:
the run over a sheet containing it equals the run over the sheet without
it, so it contributes no store read or patch, no write effect, and no
returned record, and the embedding produces no error for it. -/
theorem repair_skips_blank_field_live_rows (s1 s2 : List SheetRow)
    (row : SheetRow) (store : List Point) (hlive : row.status = "live")
    (hblank : strip row.pdf_id = "" ∨ strip row.gcp_file_id = "") :
    update_qdrant_file_ids_for_live_rows (s1 ++ row :: s2) store =
      update_qdrant_file_ids_for_live_rows (s1 ++ s2) store := by
  simp only [update_qdrant_file_ids_for_live_rows, List.filter_append]
  have hcons : (row :: s2).filter (fun r => r.status = "live") =
      row :: s2.filter (fun r => r.status = "live") := by
    simp [List.filter_cons, hlive]
  rw [hcons, runRows_append, runRows_append]
  have hskip : ∀ st : List Point, runRows (row :: s2.filter
      (fun r => r.status = "live")) st =
      runRows (s2.filter (fun r => r.status = "live")) st := by
    intro st
    simp [runRows, processLiveRow, hblank]
  rw [hskip]

/-- Witness for `repair_skips_blank_field_live_rows`: a live row with a
blank `pdf_id` leaves the run over the remaining sheet unchanged. -/
theorem repair_skips_blank_field_live_rows_witness :
    ((⟨"", "g9", "live"⟩ : SheetRow).status = "live" ∧
     (strip (⟨"", "g9", "live"⟩ : SheetRow).pdf_id = "" ∨
      strip (⟨"", "g9", "live"⟩ : SheetRow).gcp_file_id = "")) ∧
    update_qdrant_file_ids_for_live_rows
        ([⟨"X", "g1", "live"⟩] ++ (⟨"", "g9", "live"⟩ : SheetRow) :: [])
        [⟨1, [("pdf_id", "X"), ("gcp_file_id", "g0")]⟩] =
      update_qdrant_file_ids_for_live_rows ([⟨"X", "g1", "live"⟩] ++ [])
        [⟨1, [("pdf_id", "X"), ("gcp_file_id", "g0")]⟩] :=
  ⟨⟨rfl, by decide⟩,
   repair_skips_blank_field_live_rows [⟨"X", "g1", "live"⟩] []
     ⟨"", "g9", "live"⟩ [⟨1, [("pdf_id", "X"), ("gcp_file_id", "g0")]⟩]
     rfl (by decide)⟩

/-! ### Identity Deriver -/

/-- C5: `get_pdf_id_from_file` reports a failed read as the structured
local result `none` (the embedding is a total function, so no exception
escapes), and on a successful read it returns exactly the content
identifier of the full byte stream - never a partial or random value. -/
theorem get_pdf_id_from_file_structured_failure :
    (∀ m, get_pdf_id_from_file (FileRead.failed m) = none) ∧
    (∀ b, get_pdf_id_from_file (FileRead.ok b) = some (compute_pdf_id b)) :=
  ⟨fun _ => rfl, fun _ => rfl⟩

/-- C8: the Identity Deriver is deterministic (two invocations on the
same byte list agree) and its result is a 128-bit value computed from
the bytes alone. -/
theorem compute_pdf_id_deterministic_128bit :
    ∀ b : List Nat, compute_pdf_id b = compute_pdf_id b ∧
      compute_pdf_id b < 2 ^ 128 :=
  fun b => ⟨rfl, Nat.mod_lt _ (by norm_num)⟩

/-! ### Deletion Driver -/

/-- C7: the Deletion Driver is idempotent: a second run on the state left
by the first run deletes no further rows (the audit record is empty), and
applies no further change to any of the three stores. -/
theorem delete_tagged_idempotent (st : TriStore) :
    delete_tagged (delete_tagged st).1 = ((delete_tagged st).1, []) := by
  have hd1 : (delete_tagged st).1 =
      ⟨st.sheet.filter (fun r => r.status != "tagged_for_deletion"),
       st.drive.filter (fun e =>
         (st.sheet.filter (fun r => r.status == "tagged_for_deletion")).all
           (fun r => r.pdf_id != e.pdf_id)),
       st.qdrant.filter (fun p =>
         (st.sheet.filter (fun r => r.status == "tagged_for_deletion")).all
           (fun r => !(getField p.metadata "pdf_id" == some r.pdf_id)))⟩ :=
    rfl
  set R := st.sheet.filter (fun r => r.status != "tagged_for_deletion")
    with hR
  have hRtag : R.filter (fun r => r.status == "tagged_for_deletion") = [] := by
    rw [List.filter_eq_nil_iff]
    intro r hr
    rw [hR, List.mem_filter] at hr
    simpa using hr.2
  have hRkeep : R.filter (fun r => r.status != "tagged_for_deletion") = R := by
    rw [List.filter_eq_self]
    intro r hr
    rw [hR, List.mem_filter] at hr
    exact hr.2
  rw [hd1]
  simp only [delete_tagged, hRtag, hRkeep, List.all_nil, List.all_eq_true,
    List.filter_true]

/-! ### Status Reconciler -/

theorem file_ids_match_none_iff (a : Bool) (fid : String) (b : Bool)
    (fids : List String) :
    file_ids_match a fid b fids = none ↔ (a = false ∨ b = false) := by
  cases a <;> cases b <;> simp [file_ids_match]

theorem file_ids_match_both_present (fid : String) (fids : List String) :
    file_ids_match true fid true fids =
      some (fid != "" && !fids.isEmpty && fids.all (fun g => g == fid)) :=
  rfl

theorem entryFor_file_ids_match (s : List SheetRow) (d : List DriveEntry)
    (q : List QdrantAgg) (k : String) :
    (entryFor s d q k).file_ids_match =
      file_ids_match (entryFor s d q k).in_sheet
        (entryFor s d q k).gcp_file_id (entryFor s d q k).in_qdrant
        (entryFor s d q k).gcp_file_ids :=
  rfl

/-- C3 counterexample, the scenario of spec section 8 (also the recorded
run in `testy.ipynb` at identifier d354afd1-...): the sheet row has a
blank `gcp_file_id` - no sheet-side file-id data - yet `file_ids_match`
is `some false`, not the indeterminate `none` the claim requires. -/
theorem file_ids_match_false_on_blank_sheet_side :
    ((build_status_map [⟨"X", "", "live"⟩] []
        [⟨"X", 3, 3, ["F1"]⟩]).1.getD 0 default).empty_gcp_file_id_in_sheet
        = true ∧
    ((build_status_map [⟨"X", "", "live"⟩] []
        [⟨"X", 3, 3, ["F1"]⟩]).1.getD 0 default).file_ids_match
        = some false := by
  decide

/-- C3 (amended): for every entry of the status map, `file_ids_match` is
indeterminate (`none`) exactly when the identifier is missing from the
sheet or missing from the vector store; when both are present it is a
Boolean: true iff the sheet file-id is non-blank, the payload file-id
list is non-empty, and every payload file-id equals the sheet value - in
particular a blank sheet file-id or an empty payload file-id list yields
false, not indeterminate. -/
theorem file_ids_match_tristate_in_status_map (s : List SheetRow)
    (d : List DriveEntry) (q : List QdrantAgg) (e : StatusEntry)
    (he : e ∈ (build_status_map s d q).1) :
    (e.file_ids_match = none ↔ (e.in_sheet = false ∨ e.in_qdrant = false)) ∧
    (e.in_sheet = true → e.in_qdrant = true →
      e.file_ids_match = some (e.gcp_file_id != "" &&
        !e.gcp_file_ids.isEmpty &&
        e.gcp_file_ids.all (fun g => g == e.gcp_file_id))) := by
  obtain ⟨k, _, rfl⟩ := List.mem_map.1 he
  constructor
  · rw [entryFor_file_ids_match]
    exact file_ids_match_none_iff _ _ _ _
  · intro h1 h2
    rw [entryFor_file_ids_match, h1, h2]
    exact file_ids_match_both_present _ _

/-- Witness for `file_ids_match_tristate_in_status_map` on a fully
consistent concrete tri-store listing. -/
theorem file_ids_match_tristate_in_status_map_witness :
    ((build_status_map [⟨"X", "F1", "live"⟩] [⟨"X", "f.pdf"⟩]
        [⟨"X", 2, 2, ["F1"]⟩]).1.getD 0 default ∈
      (build_status_map [⟨"X", "F1", "live"⟩] [⟨"X", "f.pdf"⟩]
        [⟨"X", 2, 2, ["F1"]⟩]).1) ∧
    (((build_status_map [⟨"X", "F1", "live"⟩] [⟨"X", "f.pdf"⟩]
        [⟨"X", 2, 2, ["F1"]⟩]).1.getD 0 default).file_ids_match = none ↔
      (((build_status_map [⟨"X", "F1", "live"⟩] [⟨"X", "f.pdf"⟩]
        [⟨"X", 2, 2, ["F1"]⟩]).1.getD 0 default).in_sheet = false ∨
       ((build_status_map [⟨"X", "F1", "live"⟩] [⟨"X", "f.pdf"⟩]
        [⟨"X", 2, 2, ["F1"]⟩]).1.getD 0 default).in_qdrant = false)) :=
  ⟨by decide,
   (file_ids_match_tristate_in_status_map [⟨"X", "F1", "live"⟩]
     [⟨"X", "f.pdf"⟩] [⟨"X", 2, 2, ["F1"]⟩] _ (by decide)).1⟩

/-- C4 counterexample: an identifier present only in the sheet, through a
row whose `gcp_file_id` is blank, gets a third issue tag
("Empty gcp_file_id in Sheet") besides the two missing-in-store tags, so
its issues list is not the two-tag list the claim requires. -/
theorem status_map_sheet_only_blank_gcp_extra_issue :
    ((build_status_map [⟨"x", "", "live"⟩] [] []).1.getD 0
        default).in_sheet = true ∧
    ((build_status_map [⟨"x", "", "live"⟩] [] []).1.getD 0
        default).in_drive = false ∧
    ((build_status_map [⟨"x", "", "live"⟩] [] []).1.getD 0
        default).in_qdrant = false ∧
    ((build_status_map [⟨"x", "", "live"⟩] [] []).1.getD 0
        default).issues =
      ["Empty gcp_file_id in Sheet", "Missing in Drive",
       "Missing in Qdrant"] ∧
    ((build_status_map [⟨"x", "", "live"⟩] [] []).1.getD 0
        default).issues ≠ ["Missing in Drive", "Missing in Qdrant"] := by
  decide

/-- C4 (amended): the Status Reconciler produces exactly one entry per
identifier appearing in any of the three sources (its key column is the
deduplicated union of the three key lists, without duplicates, and covers
an identifier iff some source lists it); and for an identifier present
only in the sheet, through a single row whose `pdf_id` and `gcp_file_id`
are non-blank, the entry has `in_sheet` true, `in_drive` false,
`in_qdrant` false and issues exactly the missing-in-drive and
missing-in-qdrant tags (a blank field or duplicate row adds further
tags). -/
theorem status_map_outer_join_and_sheet_only (s : List SheetRow)
    (d : List DriveEntry) (q : List QdrantAgg) :
    ((build_status_map s d q).1.map StatusEntry.pdf_id =
        (s.map SheetRow.pdf_id ++ d.map DriveEntry.pdf_id ++
          q.map QdrantAgg.pdf_id).dedup ∧
      ((build_status_map s d q).1.map StatusEntry.pdf_id).Nodup ∧
      ∀ k, k ∈ (build_status_map s d q).1.map StatusEntry.pdf_id ↔
        k ∈ s.map SheetRow.pdf_id ++ d.map DriveEntry.pdf_id ++
          q.map QdrantAgg.pdf_id) ∧
    (∀ (k : String) (row : SheetRow) (e : StatusEntry),
      s.filter (fun r => r.pdf_id == k) = [row] →
      row.pdf_id ≠ "" → row.gcp_file_id ≠ "" →
      (∀ de ∈ d, de.pdf_id ≠ k) → (∀ a ∈ q, a.pdf_id ≠ k) →
      e ∈ (build_status_map s d q).1 → e.pdf_id = k →
      e.in_sheet = true ∧ e.in_drive = false ∧ e.in_qdrant = false ∧
        e.issues = ["Missing in Drive", "Missing in Qdrant"]) := by
  have hmap : (build_status_map s d q).1.map StatusEntry.pdf_id =
      (s.map SheetRow.pdf_id ++ d.map DriveEntry.pdf_id ++
        q.map QdrantAgg.pdf_id).dedup := by
    show ((s.map SheetRow.pdf_id ++ d.map DriveEntry.pdf_id ++
        q.map QdrantAgg.pdf_id).dedup.map (entryFor s d q)).map
        StatusEntry.pdf_id = _
    rw [List.map_map]
    have hid : StatusEntry.pdf_id ∘ entryFor s d q = id :=
      funext fun k => rfl
    rw [hid, List.map_id]
  refine ⟨⟨hmap, ?_, ?_⟩, ?_⟩
  · rw [hmap]
    exact List.nodup_dedup _
  · intro k
    rw [hmap]
    exact List.mem_dedup
  · intro k row e hfilter hpdf hgcp hd hq he hek
    obtain ⟨k0, _, hke⟩ := List.mem_map.1 he
    subst hke
    have hk : k0 = k := hek
    rw [hk]
    have hrowmem : row ∈ s.filter (fun r => r.pdf_id == k) := by
      rw [hfilter]
      exact List.mem_singleton_self row
    have hkrow : row.pdf_id = k := by
      rw [List.mem_filter] at hrowmem
      simpa using hrowmem.2
    have hkne : k ≠ "" := hkrow ▸ hpdf
    have hgb : (row.gcp_file_id == "") = false := by simpa using hgcp
    have hqex : ¬∃ x ∈ q, x.pdf_id = k := by simpa using hq
    have hfq : List.find? (fun a => a.pdf_id == k) q = none := by
      rw [List.find?_eq_none]
      intro a ha
      simpa using hq a ha
    refine ⟨?_, ?_, ?_, ?_⟩
    · simp [entryFor, hfilter, hkne, hgb, hqex, hfq, file_ids_match]
    · simp [entryFor, hfilter, hkne, hgb, hqex, hfq, file_ids_match]
      exact hd
    · simp [entryFor, hfilter, hkne, hgb, hqex, hfq, file_ids_match]
      exact hq
    · simp [entryFor, hfilter, hkne, hgb, hqex, hfq, file_ids_match]
      rw [if_pos hd, if_pos hq]
      rfl

/-- Witness for `status_map_outer_join_and_sheet_only`: the sheet-only
clause applied at a concrete one-row sheet with both other listings
empty. -/
theorem status_map_outer_join_and_sheet_only_witness :
    (([⟨"Y", "F1", "live"⟩] : List SheetRow).filter
        (fun r => r.pdf_id == "Y") = [⟨"Y", "F1", "live"⟩] ∧
     ((build_status_map [⟨"Y", "F1", "live"⟩] [] []).1.getD 0 default ∈
        (build_status_map [⟨"Y", "F1", "live"⟩] [] []).1)) ∧
    (((build_status_map [⟨"Y", "F1", "live"⟩] [] []).1.getD 0
        default).in_sheet = true ∧
     ((build_status_map [⟨"Y", "F1", "live"⟩] [] []).1.getD 0
        default).in_drive = false ∧
     ((build_status_map [⟨"Y", "F1", "live"⟩] [] []).1.getD 0
        default).in_qdrant = false ∧
     ((build_status_map [⟨"Y", "F1", "live"⟩] [] []).1.getD 0
        default).issues = ["Missing in Drive", "Missing in Qdrant"]) :=
  ⟨⟨by decide, by decide⟩,
   (status_map_outer_join_and_sheet_only [⟨"Y", "F1", "live"⟩] [] []).2
     "Y" ⟨"Y", "F1", "live"⟩ _ (by decide) (by decide) (by decide)
     (by decide) (by decide) (by decide) (by decide)⟩

end Uscgaux
